import Mathlib

/-!
Shallow embedding of the textual-video playback core: the frame-timing
scheduler and playback state machine of `src/textual_video/player.py`, the
render-delay table of `src/textual_video/utils.py` and the enums of
`src/textual_video/enums.py`. Python floats are modelled as rationals; the
Textual timer handle is modelled as a running flag on the player state, and a
tick can be delivered only while that flag is set.
-/

namespace TextualVideo

/-- Image rendering type (`enums.py`, class `ImageType`). -/
inductive ImageType where
  | SIXEL
  | TGP
  | HALFCELL
  | UNICODE
deriving DecidableEq, Repr

/-- Update image strategy (`enums.py`, class `UpdateStrategy`). -/
inductive UpdateStrategy where
  | REMOUNT
  | REACTIVE
  | SET_IMAGE
deriving DecidableEq, Repr

/-- Map of render delays for image types (`utils.py`, `RENDER_DELAY`). -/
def RENDER_DELAY : ImageType → ℚ
  | ImageType.SIXEL => 373 / 10000
  | ImageType.HALFCELL => 1065 / 100000
  | ImageType.UNICODE => 116 / 100000
  | ImageType.TGP => 288 / 100000

/-- Get render delay for given image type (`utils.py`, `get_render_delay`). -/
def get_render_delay (t : ImageType) : ℚ := RENDER_DELAY t

/-- Embeds `render_delay or get_render_delay(image_type)` from
`VideoPlayer.__init__` (player.py line 154). Python `or` takes the right
operand when the left is falsy, and both `None` and `0.0` are falsy, so an
explicitly supplied `0.0` also falls back to the per-type default. -/
def resolve_render_delay (render_delay : Option ℚ) (t : ImageType) : ℚ :=
  match render_delay with
  | none => get_render_delay t
  | some r => if r = 0 then get_render_delay t else r

/-- Embeds the `assert render_delay is None or render_delay >= 0` check from
`VideoPlayer.__init__` (player.py line 140). -/
def render_delay_ok : Option ℚ → Bool
  | none => true
  | some r => decide (0 ≤ r)

/-- The construction-time configuration fields relevant to the timing and
decimation claims (subset of the `VideoPlayer.__init__` signature). -/
structure Config where
  image_type : ImageType
  speed : ℚ
  render_delay : Option ℚ
  fps_decrease_factor : ℤ
deriving DecidableEq, Repr

/-- The fields `VideoPlayer.__init__` initializes that the claims observe. -/
structure InitFields where
  current_frame_index : ℕ
  paused : Bool
  fake_paused : Bool
  fps_decrease_factor : ℤ
  speed : ℚ
  render_delay : ℚ
deriving DecidableEq, Repr

/-- Embeds the validation and field initialization of `VideoPlayer.__init__`
(player.py lines 137-160). Path existence is a fact about the file system and
is not modelled; the only configuration check the constructor performs is the
render-delay assertion. Note there is no check on `fps_decrease_factor`. -/
def VideoPlayer_init (cfg : Config) : Except String InitFields :=
  if render_delay_ok cfg.render_delay then
    Except.ok
      { current_frame_index := 0
        paused := false
        fake_paused := false
        fps_decrease_factor := cfg.fps_decrease_factor
        speed := cfg.speed
        render_delay := resolve_render_delay cfg.render_delay cfg.image_type }
  else
    Except.error "Render delay should be greater than 0."

/-- PlaybackClock derived value: `delay_between_frames / speed - render_delay`
(player.py lines 175 and 179). -/
def effective_interval (delay_between_frames speed render_delay : ℚ) : ℚ :=
  delay_between_frames / speed - render_delay

/-- Embeds the timing part of `VideoPlayer.on_mount` (player.py lines
175-181): the assert on the effective interval runs before `set_interval`, so
a non-positive interval raises before the repeating timer is armed; otherwise
the timer is armed with exactly that interval, which is returned. -/
def on_mount_timer (delay_between_frames speed render_delay : ℚ) :
    Except String ℚ :=
  if delay_between_frames / speed - render_delay > 0 then
    Except.ok (delay_between_frames / speed - render_delay)
  else
    Except.error "Render delay should be less than delay_between_frames / speed."

/-- The mutable player state the scheduler and state machine operate on:
`current_frame_index`, the reactive `paused` flag, the private `_fake_paused`
flag, the timer handle (as a running flag) and `metadata.frame_count`. -/
structure PlayerState where
  current_frame_index : ℕ
  paused : Bool
  fake_paused : Bool
  timerRunning : Bool
  frame_count : ℕ
deriving DecidableEq, Repr

/-- Embeds `VideoPlayer.pause` (player.py lines 234-239): `timer.pause()` then
`paused = True`; the refresh calls do not change this state. -/
def pause (s : PlayerState) : PlayerState :=
  { s with timerRunning := false, paused := true }

/-- Embeds `VideoPlayer.play` (player.py lines 225-232): reset the index to 0
when it equals `frame_count - 1` (Python integers, hence the `ℤ` comparison),
then `timer.resume()` and `paused = False`. -/
def play (s : PlayerState) : PlayerState :=
  let s2 :=
    if (s.current_frame_index : ℤ) = (s.frame_count : ℤ) - 1 then
      { s with current_frame_index := 0 }
    else s
  { s2 with timerRunning := true, paused := false }

/-- Embeds `VideoPlayer.action_toggle_pause` (player.py lines 241-247):
clear `_fake_paused`, then branch on `paused`. -/
def action_toggle_pause (s : PlayerState) : PlayerState :=
  let s2 := { s with fake_paused := false }
  if s2.paused then play s2 else pause s2

/-- Embeds `VideoPlayer._fake_pause` (player.py lines 249-252): stop the
timer and set the private flag, leaving `paused` untouched. -/
def fake_pause (s : PlayerState) : PlayerState :=
  { s with timerRunning := false, fake_paused := true }

/-- Embeds `VideoPlayer._fake_resume` (player.py lines 254-258): resume the
timer and clear the flag, but only when `_fake_paused` is set. -/
def fake_resume (s : PlayerState) : PlayerState :=
  if s.fake_paused then { s with timerRunning := true, fake_paused := false }
  else s

/-- Embeds `VideoPlayer.on_pause_button_entered` (player.py lines 264-267):
fake-pause only when not paused. -/
def on_pause_button_entered (s : PlayerState) : PlayerState :=
  if s.paused then s else fake_pause s

/-- Embeds `VideoPlayer.on_pause_button_leaved` (player.py lines 269-272):
fake-resume only when `_fake_paused` is set. -/
def on_pause_button_leaved (s : PlayerState) : PlayerState :=
  if s.fake_paused then fake_resume s else s

/-- Observable calls `_replace_frame_widget` makes while presenting a frame. -/
inductive DispatchEvent where
  | refresh
  | frame_update (idx : ℕ)
  | set_frame (idx : ℕ)
deriving DecidableEq, Repr

/-- Embeds `VideoPlayer._replace_frame_widget` (player.py lines 200-204): a
recompose refresh (the Update Dispatcher), the external `on_frame_update`
observer called with `current_frame_index`, and the reactive assignment
`frame = frames[idx]`. -/
def replace_frame_widget (s : PlayerState) (idx : ℕ) : List DispatchEvent :=
  [DispatchEvent.refresh, DispatchEvent.frame_update s.current_frame_index,
   DispatchEvent.set_frame idx]

/-- Embeds `VideoPlayer._update_frame_index` (player.py lines 190-195), the
scheduler tick: advance and dispatch when another frame remains, otherwise
`pause()`. Returns the new state and the dispatch events of the tick. -/
def update_frame_index (s : PlayerState) : PlayerState × List DispatchEvent :=
  if s.frame_count > s.current_frame_index + 1 then
    let s2 := { s with current_frame_index := s.current_frame_index + 1 }
    (s2, replace_frame_widget s2 s2.current_frame_index)
  else
    (pause s, [])

/-- The operations that can hit a mounted player: a timer tick, the public
`play`/`pause` methods, the toggle action, the raw fake-pause and fake-resume
helpers, and the two hover message handlers. -/
inductive Op where
  | tick
  | play
  | pause
  | toggle
  | fakePause
  | fakeResume
  | hoverEnter
  | hoverLeave
deriving DecidableEq, Repr

/-- One step of the mounted player. The timer facility delivers a tick only
while the timer is running; every other operation is the corresponding method
of `VideoPlayer`. -/
def applyOp (op : Op) (s : PlayerState) : PlayerState :=
  match op with
  | Op.tick => if s.timerRunning then (update_frame_index s).1 else s
  | Op.play => play s
  | Op.pause => pause s
  | Op.toggle => action_toggle_pause s
  | Op.fakePause => fake_pause s
  | Op.fakeResume => fake_resume s
  | Op.hoverEnter => on_pause_button_entered s
  | Op.hoverLeave => on_pause_button_leaved s

/-- Run a sequence of operations against the player. -/
def run (ops : List Op) (s : PlayerState) : PlayerState :=
  ops.foldl (fun s op => applyOp op s) s

/-- Modelled from the spec: `VideoMetadata.decrease_fps` lives in the
repository module `metadata.py` (imported by `player.py` via `core.py`), which
is not among the sources. Per the spec, the FPS Decimator keeps the frames at
indices 0, factor, 2 * factor, ... of the input sequence. -/
def decrease_fps {α : Type} : ℕ → List α → List α
  | _, [] => []
  | factor, x :: xs => x :: decrease_fps factor (xs.drop (factor - 1))
termination_by _ l => l.length
decreasing_by
  simp only [List.length_drop, List.length_cons]
  omega

/-- Embeds lines 171-173 of `VideoPlayer.on_mount`: the decimator runs only
when `fps_decrease_factor > 1`; any other factor leaves the frames untouched
and raises no error. -/
def on_mount_frames {α : Type} (factor : ℤ) (frames : List α) : List α :=
  if factor > 1 then decrease_fps factor.toNat frames else frames

/-- Modelled from the spec and the `UpdateStrategy` docstring in `enums.py`
(the `set_image` strategy supports only the SIXEL image type): whether the
display element of a render type exposes an in-place image setter. -/
def has_set_image_support : ImageType → Bool
  | ImageType.SIXEL => true
  | _ => false

/-- Modelled from the spec: the repository revision whose
`VideoPlayer.__init__` accepts an `update_strategy` argument is not among the
sources (only the `UpdateStrategy` enum in `enums.py` and the caller in
`main.py` are). Per the spec, requesting `SET_IMAGE` with a render type whose
display element has no in-place image setter fails at construction with a
`StrategyMismatchError`; otherwise the strategy is accepted as given. -/
def validate_update_strategy (strategy : UpdateStrategy) (t : ImageType) :
    Except String UpdateStrategy :=
  if strategy = UpdateStrategy.SET_IMAGE ∧ has_set_image_support t = false then
    Except.error "StrategyMismatchError: set_image supports only SIXEL ImageType"
  else
    Except.ok strategy

/-- A mounted player together with its construction-time update strategy. -/
structure ConfiguredPlayer where
  state : PlayerState
  update_strategy : UpdateStrategy
deriving DecidableEq, Repr

/-- One step of the configured player: every `VideoPlayer` operation acts on
the mutable playback state; none of them writes the strategy field. -/
def applyOpC (op : Op) (p : ConfiguredPlayer) : ConfiguredPlayer :=
  { p with state := applyOp op p.state }

/-- Run a sequence of operations against the configured player. -/
def runC (ops : List Op) (p : ConfiguredPlayer) : ConfiguredPlayer :=
  ops.foldl (fun p op => applyOpC op p) p

/-- The decimated sequence has the ceiling length, stated with fuel on the
list length to drive the induction. -/
theorem decrease_fps_length_aux {α : Type} (f : ℕ) (hf : 1 ≤ f) :
    ∀ (n : ℕ) (l : List α), l.length ≤ n →
      (decrease_fps f l).length = (l.length + f - 1) / f := by
  intro n
  induction n with
  | zero =>
    intro l hl
    have hnil : l = [] := List.length_eq_zero.mp (Nat.le_zero.mp hl)
    subst hnil
    simp only [decrease_fps, List.length_nil]
    rw [Nat.div_eq_of_lt (by omega)]
  | succ n ih =>
    intro l hl
    cases l with
    | nil =>
      simp only [decrease_fps, List.length_nil]
      rw [Nat.div_eq_of_lt (by omega)]
    | cons x xs =>
      simp only [decrease_fps, List.length_cons]
      rw [ih (xs.drop (f - 1))
            (by simp only [List.length_drop, List.length_cons] at hl ⊢; omega)]
      simp only [List.length_drop]
      by_cases h : f - 1 ≤ xs.length
      · have h1 : xs.length - (f - 1) + f - 1 = xs.length := by omega
        have h2 : xs.length + 1 + f - 1 = xs.length + f := by omega
        rw [h1, h2, Nat.add_div_right _ (by omega)]
      · have h1 : xs.length - (f - 1) = 0 := by omega
        have h2 : xs.length + 1 + f - 1 = xs.length + f := by omega
        rw [h1, h2, Nat.add_div_right _ (by omega),
            Nat.div_eq_of_lt (by omega : xs.length < f),
            Nat.div_eq_of_lt (by omega : 0 + f - 1 < f)]

/-- Element k of the decimated sequence is element k * f of the input. -/
theorem decrease_fps_stride_aux {α : Type} (f : ℕ) (hf : 1 ≤ f) :
    ∀ (n : ℕ) (l : List α), l.length ≤ n →
      ∀ k, (decrease_fps f l)[k]? = l[k * f]? := by
  intro n
  induction n with
  | zero =>
    intro l hl k
    have hnil : l = [] := List.length_eq_zero.mp (Nat.le_zero.mp hl)
    subst hnil
    simp [decrease_fps]
  | succ n ih =>
    intro l hl k
    cases l with
    | nil => simp [decrease_fps]
    | cons x xs =>
      cases k with
      | zero => simp [decrease_fps]
      | succ k =>
        simp only [decrease_fps, List.getElem?_cons_succ]
        rw [ih (xs.drop (f - 1))
              (by simp only [List.length_drop, List.length_cons] at hl ⊢; omega)]
        rw [List.getElem?_drop]
        have he : (k + 1) * f = (f - 1 + k * f) + 1 := by
          rw [Nat.succ_mul]
          omega
        rw [he, List.getElem?_cons_succ]

/-- No player operation changes the frame count. -/
theorem applyOp_frame_count (op : Op) (s : PlayerState) :
    (applyOp op s).frame_count = s.frame_count := by
  cases op <;>
    simp only [applyOp, update_frame_index, play, pause, action_toggle_pause,
      fake_pause, fake_resume, on_pause_button_entered, on_pause_button_leaved] <;>
    split_ifs <;> rfl

/-- A single operation preserves the index bound. -/
theorem applyOp_bound (op : Op) (s : PlayerState)
    (h : s.current_frame_index + 1 ≤ s.frame_count) :
    (applyOp op s).current_frame_index + 1 ≤ (applyOp op s).frame_count := by
  cases op <;>
    simp only [applyOp, update_frame_index, play, pause, action_toggle_pause,
      fake_pause, fake_resume, on_pause_button_entered, on_pause_button_leaved] <;>
    (try split_ifs) <;> (try simp_all) <;> omega

/-- Every operation sequence preserves the index bound. -/
theorem run_bound (ops : List Op) (s : PlayerState)
    (h : s.current_frame_index + 1 ≤ s.frame_count) :
    (run ops s).current_frame_index + 1 ≤ (run ops s).frame_count := by
  induction ops generalizing s with
  | nil => simpa [run] using h
  | cons op ops ih => exact ih (applyOp op s) (applyOp_bound op s h)

/-- While not paused, no operation other than a play at the last index
decreases the index. -/
theorem applyOp_mono (op : Op) (s : PlayerState)
    (hp : s.paused = false)
    (hr : ¬ (op = Op.play ∧
        (s.current_frame_index : ℤ) = (s.frame_count : ℤ) - 1)) :
    s.current_frame_index ≤ (applyOp op s).current_frame_index := by
  cases op <;>
    simp_all only [applyOp, update_frame_index, play, pause, action_toggle_pause,
      fake_pause, fake_resume, on_pause_button_entered, on_pause_button_leaved] <;>
    (try split_ifs) <;> simp_all

/-- C1: the armed tick interval is exactly `delay_between_frames / speed -
render_delay`; a positive effective interval arms the timer with exactly that
value, and a non-positive one makes mount fail before the timer is armed,
with no clamping and no mid-playback discovery. -/
theorem C1_timer_interval (d sp r : ℚ) :
    (∀ i, on_mount_timer d sp r = Except.ok i →
        i = effective_interval d sp r ∧ 0 < i)
    ∧ (0 < effective_interval d sp r →
        on_mount_timer d sp r = Except.ok (effective_interval d sp r))
    ∧ (effective_interval d sp r ≤ 0 →
        ∃ e, on_mount_timer d sp r = Except.error e) := by
  simp only [on_mount_timer, effective_interval, gt_iff_lt]
  split
  next h =>
    refine ⟨?_, fun _ => rfl, fun hle => absurd h (not_lt.mpr hle)⟩
    intro i hi
    have hE := Except.ok.inj hi
    exact ⟨hE.symm, hE ▸ h⟩
  next h =>
    refine ⟨?_, ?_, ?_⟩
    · intro i hi
      cases hi
    · intro hpos
      exact absurd hpos h
    · intro hle
      exact ⟨_, rfl⟩

/-- Witness for C1 at delay_between_frames = 1/10, speed = 1: render_delay =
1/50 arms the timer with the positive effective interval, while render_delay =
3/20 makes mount fail. -/
theorem C1_timer_interval_witness :
    on_mount_timer (1/10) 1 (1/50) =
      Except.ok (effective_interval (1/10) 1 (1/50))
    ∧ 0 < effective_interval (1/10) 1 (1/50)
    ∧ (∃ e, on_mount_timer (1/10) 1 (3/20) = Except.error e) :=
  ⟨(C1_timer_interval (1/10) 1 (1/50)).2.1 (by norm_num [effective_interval]),
   by norm_num [effective_interval],
   (C1_timer_interval (1/10) 1 (3/20)).2.2 (by norm_num [effective_interval])⟩

/-- C2: on a scheduler tick, when another frame remains the index advances by
exactly one and both the reactive frame assignment (Update Dispatcher) and
the external observer callback fire with the new index; otherwise the state
becomes Paused, the timer stops, and the index is unchanged. -/
theorem C2_tick_semantics (s : PlayerState) :
    (s.current_frame_index + 1 < s.frame_count →
        (update_frame_index s).1.current_frame_index = s.current_frame_index + 1
        ∧ DispatchEvent.set_frame (s.current_frame_index + 1) ∈
            (update_frame_index s).2
        ∧ DispatchEvent.frame_update (s.current_frame_index + 1) ∈
            (update_frame_index s).2)
    ∧ (¬ s.current_frame_index + 1 < s.frame_count →
        update_frame_index s = (pause s, [])
        ∧ (pause s).paused = true
        ∧ (pause s).timerRunning = false
        ∧ (pause s).current_frame_index = s.current_frame_index) := by
  constructor
  · intro h
    simp [update_frame_index, replace_frame_widget, h]
  · intro h
    simp [update_frame_index, pause, h]

/-- Witness for C2: a mid-stream tick advances 0 to 1 with frame_count 2, and
an end-of-stream tick at index 1 pauses without changing the index. -/
theorem C2_tick_semantics_witness :
    (update_frame_index ⟨0, false, false, true, 2⟩).1.current_frame_index = 1
    ∧ DispatchEvent.frame_update 1 ∈
        (update_frame_index ⟨0, false, false, true, 2⟩).2
    ∧ update_frame_index ⟨1, false, false, true, 2⟩ =
        (pause ⟨1, false, false, true, 2⟩, []) :=
  ⟨((C2_tick_semantics ⟨0, false, false, true, 2⟩).1 (by decide)).1,
   ((C2_tick_semantics ⟨0, false, false, true, 2⟩).1 (by decide)).2.2,
   ((C2_tick_semantics ⟨1, false, false, true, 2⟩).2 (by decide)).1⟩

/-- C3 counterexample: with frame_count = 2, a tick from the freshly mounted
state reaches index 1 with the player still Playing; invoking play there
leaves the player Playing but moves current_frame_index from 1 back to 0, so
the index is not non-decreasing while Playing across sequences of tick and
play operations. -/
theorem C3_counterexample :
    (run [Op.tick] ⟨0, false, false, true, 2⟩).paused = false
    ∧ (run [Op.tick] ⟨0, false, false, true, 2⟩).current_frame_index = 1
    ∧ (run [Op.tick, Op.play] ⟨0, false, false, true, 2⟩).paused = false
    ∧ (run [Op.tick, Op.play] ⟨0, false, false, true, 2⟩).current_frame_index
        < (run [Op.tick] ⟨0, false, false, true, 2⟩).current_frame_index := by
  decide

/-- C3 (amended): along every operation sequence the index keeps satisfying
0 ≤ current_frame_index ≤ frame_count - 1 whenever that bound holds initially
(as it does at mount, where the index is 0 and the frame cache is non-empty);
and a step taken while the player is Playing never decreases the index unless
it is a play invocation at the last index, which resets the index to 0. -/
theorem C3_bound_and_monotone (ops : List Op) (op : Op) (s : PlayerState)
    (hInv : s.current_frame_index + 1 ≤ s.frame_count) :
    ((run ops s).current_frame_index + 1 ≤ (run ops s).frame_count)
    ∧ (s.paused = false →
        ¬ (op = Op.play ∧
            (s.current_frame_index : ℤ) = (s.frame_count : ℤ) - 1) →
        s.current_frame_index ≤ (applyOp op s).current_frame_index) :=
  ⟨run_bound ops s hInv, fun hp hr => applyOp_mono op s hp hr⟩

/-- Witness for C3 (amended) on a play/pause/tick sequence from the mounted
state with frame_count 3, and on a single mid-stream tick. -/
theorem C3_bound_and_monotone_witness :
    (run [Op.tick, Op.toggle, Op.toggle, Op.tick]
        ⟨0, false, false, true, 3⟩).current_frame_index + 1
      ≤ (run [Op.tick, Op.toggle, Op.toggle, Op.tick]
        ⟨0, false, false, true, 3⟩).frame_count
    ∧ (0 : ℕ) ≤ (applyOp Op.tick ⟨0, false, false, true, 3⟩).current_frame_index :=
  ⟨(C3_bound_and_monotone [Op.tick, Op.toggle, Op.toggle, Op.tick] Op.tick
      ⟨0, false, false, true, 3⟩ (by decide)).1,
   (C3_bound_and_monotone [Op.tick, Op.toggle, Op.toggle, Op.tick] Op.tick
      ⟨0, false, false, true, 3⟩ (by decide)).2 rfl (by decide)⟩

/-- C4: play resets the index to 0 exactly when invoked at the last index
(Python integer comparison, hence the `ℤ` forms) and leaves it unchanged at
every other index; pause never changes the index, so the index persists
across pause/resume. -/
theorem C4_restart_from_end (s : PlayerState) :
    ((s.current_frame_index : ℤ) = (s.frame_count : ℤ) - 1 →
        (play s).current_frame_index = 0)
    ∧ ((s.current_frame_index : ℤ) ≠ (s.frame_count : ℤ) - 1 →
        (play s).current_frame_index = s.current_frame_index)
    ∧ (pause s).current_frame_index = s.current_frame_index := by
  refine ⟨fun h => ?_, fun h => ?_, rfl⟩ <;> simp [play, h]

/-- Witness for C4: with frame_count 5, play at last index 4 resets to 0,
play at index 2 keeps 2, and pause keeps the index. -/
theorem C4_restart_from_end_witness :
    (play ⟨4, true, false, false, 5⟩).current_frame_index = 0
    ∧ (play ⟨2, true, false, false, 5⟩).current_frame_index = 2
    ∧ (pause ⟨2, false, false, true, 5⟩).current_frame_index = 2 :=
  ⟨(C4_restart_from_end ⟨4, true, false, false, 5⟩).1 (by decide),
   (C4_restart_from_end ⟨2, true, false, false, 5⟩).2.1 (by decide),
   (C4_restart_from_end ⟨2, false, false, true, 5⟩).2.2⟩

/-- C5: for every factor ≥ 1 the decimated sequence has length
ceil(n / factor), written (n + factor - 1) / factor over ℕ, it keeps exactly
the frames at indices 0, factor, 2 * factor, ..., and factor = 1 is the
identity. -/
theorem C5_decimation (factor : ℕ) (l : List ℕ) (hf : 1 ≤ factor) :
    (decrease_fps factor l).length = (l.length + factor - 1) / factor
    ∧ (∀ k, (decrease_fps factor l)[k]? = l[k * factor]?)
    ∧ decrease_fps 1 l = l := by
  refine ⟨decrease_fps_length_aux factor hf l.length l le_rfl,
          decrease_fps_stride_aux factor hf l.length l le_rfl, ?_⟩
  apply List.ext_getElem?
  intro k
  rw [decrease_fps_stride_aux 1 le_rfl l.length l le_rfl k, Nat.mul_one]

/-- Witness for C5: the spec scenario with 10 frames and factor 2 gives
length 5 and keeps the frame at original index 2 in slot 1. -/
theorem C5_decimation_witness :
    (decrease_fps 2 [0, 1, 2, 3, 4, 5, 6, 7, 8, 9]).length =
      (([0, 1, 2, 3, 4, 5, 6, 7, 8, 9] : List ℕ).length + 2 - 1) / 2
    ∧ (decrease_fps 2 [0, 1, 2, 3, 4, 5, 6, 7, 8, 9])[1]? =
        ([0, 1, 2, 3, 4, 5, 6, 7, 8, 9] : List ℕ)[1 * 2]?
    ∧ decrease_fps 1 [0, 1, 2] = [0, 1, 2] :=
  ⟨(C5_decimation 2 [0, 1, 2, 3, 4, 5, 6, 7, 8, 9] (by decide)).1,
   (C5_decimation 2 [0, 1, 2, 3, 4, 5, 6, 7, 8, 9] (by decide)).2.1 1,
   (C5_decimation 1 [0, 1, 2] le_rfl).2.2⟩

/-- C6: evaluating the code at the failing input: a render_delay explicitly
provided as 0 passes the constructor assertion as a valid value, yet
`render_delay or get_render_delay(image_type)` treats 0.0 as falsy and
silently substitutes the per-type SIXEL default 0.0373, so the provided value
is not the one the Playback Clock receives. -/
theorem C6_zero_render_delay_ignored :
    render_delay_ok (some 0) = true
    ∧ resolve_render_delay (some 0) ImageType.SIXEL =
        get_render_delay ImageType.SIXEL
    ∧ get_render_delay ImageType.SIXEL = 373 / 10000
    ∧ resolve_render_delay (some 0) ImageType.SIXEL ≠ 0 := by
  refine ⟨by decide, by norm_num [resolve_render_delay], rfl, ?_⟩
  norm_num [resolve_render_delay, get_render_delay, RENDER_DELAY]

/-- C7 counterexample: construction with fps_decrease_factor = 0 (< 1)
succeeds, because the constructor validates only the render delay, and at
mount a factor of 0 merely skips decimation instead of raising a
configuration error. -/
theorem C7_counterexample :
    (VideoPlayer_init
        { image_type := ImageType.SIXEL, speed := 1, render_delay := none,
          fps_decrease_factor := 0 }).isOk = true
    ∧ on_mount_frames 0 ([5, 6, 7] : List ℕ) = [5, 6, 7] := by
  constructor
  · rfl
  · simp [on_mount_frames]

/-- C7 (amended): constructing with a negative render_delay fails eagerly at
construction with a configuration error; a decimation factor below 1 is not
rejected anywhere — construction succeeds whenever the render delay is valid,
and at mount any factor not above 1 simply skips decimation. -/
theorem C7_eager_validation (cfg : Config) (frames : List ℕ) :
    (∀ r, cfg.render_delay = some r → r < 0 →
        ∃ e, VideoPlayer_init cfg = Except.error e)
    ∧ (render_delay_ok cfg.render_delay = true →
        (VideoPlayer_init cfg).isOk = true)
    ∧ (cfg.fps_decrease_factor < 1 →
        on_mount_frames cfg.fps_decrease_factor frames = frames) := by
  refine ⟨?_, ?_, ?_⟩
  · intro r hr hneg
    have hok : render_delay_ok cfg.render_delay = false := by
      rw [hr]
      simpa [render_delay_ok] using hneg
    exact ⟨"Render delay should be greater than 0.",
      by simp [VideoPlayer_init, hok]⟩
  · intro hok
    simp only [VideoPlayer_init, hok, if_true]
    rfl
  · intro hfac
    rw [on_mount_frames, if_neg (by omega)]

/-- Witness for C7 (amended): render_delay = -1 makes construction fail,
render_delay unset makes it succeed, and factor 0 leaves the frames alone. -/
theorem C7_eager_validation_witness :
    (∃ e, VideoPlayer_init
        { image_type := ImageType.SIXEL, speed := 1, render_delay := some (-1),
          fps_decrease_factor := 1 } = Except.error e)
    ∧ (VideoPlayer_init
        { image_type := ImageType.SIXEL, speed := 1, render_delay := none,
          fps_decrease_factor := 0 }).isOk = true
    ∧ on_mount_frames 0 ([5, 6, 7] : List ℕ) = [5, 6, 7] :=
  ⟨(C7_eager_validation
      { image_type := ImageType.SIXEL, speed := 1, render_delay := some (-1),
        fps_decrease_factor := 1 } []).1 (-1) rfl (by norm_num),
   (C7_eager_validation
      { image_type := ImageType.SIXEL, speed := 1, render_delay := none,
        fps_decrease_factor := 0 } []).2.1 (by decide),
   (C7_eager_validation
      { image_type := ImageType.SIXEL, speed := 1, render_delay := none,
        fps_decrease_factor := 0 } [5, 6, 7]).2.2 (by decide)⟩

/-- C8: toggle_pause clears the fake-paused flag on every call and then acts
on the explicit paused flag alone; starting from Playing (not paused, no fake
pause, timer running) or from Paused (paused, no fake pause, timer stopped),
two consecutive toggles restore both the paused flag and the timer status. -/
theorem C8_toggle_twice (s : PlayerState) :
    (action_toggle_pause s).fake_paused = false
    ∧ (s.paused = false →
        action_toggle_pause s = pause { s with fake_paused := false })
    ∧ (s.paused = true →
        action_toggle_pause s = play { s with fake_paused := false })
    ∧ ((s.paused = false ∧ s.fake_paused = false ∧ s.timerRunning = true) ∨
        (s.paused = true ∧ s.fake_paused = false ∧ s.timerRunning = false) →
        (action_toggle_pause (action_toggle_pause s)).paused = s.paused
        ∧ (action_toggle_pause (action_toggle_pause s)).timerRunning
            = s.timerRunning) := by
  rcases s with ⟨idx, p, fk, tr, fc⟩
  cases p <;> simp [action_toggle_pause, play, pause] <;>
    (try split_ifs) <;> simp_all

/-- Witness for C8 from a Playing state and from a Paused state. -/
theorem C8_toggle_twice_witness :
    (action_toggle_pause ⟨0, false, false, true, 5⟩).fake_paused = false
    ∧ (action_toggle_pause (action_toggle_pause
        ⟨0, false, false, true, 5⟩)).paused = false
    ∧ (action_toggle_pause (action_toggle_pause
        ⟨3, true, false, false, 5⟩)).timerRunning = false :=
  ⟨(C8_toggle_twice ⟨0, false, false, true, 5⟩).1,
   ((C8_toggle_twice ⟨0, false, false, true, 5⟩).2.2.2
      (Or.inl (by decide))).1,
   ((C8_toggle_twice ⟨3, true, false, false, 5⟩).2.2.2
      (Or.inr (by decide))).2⟩

/-- C9: fake_pause stops the timer and leaves the paused flag and the index
untouched; an immediate fake_resume leaves both the index and the externally
visible paused flag as they were; fake_resume resumes the timer only from the
fake-paused state and is the identity otherwise; and the hover handler
invokes fake_pause only while the player is not paused. -/
theorem C9_fake_pause_resume (s : PlayerState) :
    (fake_pause s).timerRunning = false
    ∧ (fake_pause s).paused = s.paused
    ∧ (fake_pause s).current_frame_index = s.current_frame_index
    ∧ (fake_resume (fake_pause s)).current_frame_index = s.current_frame_index
    ∧ (fake_resume (fake_pause s)).paused = s.paused
    ∧ (s.fake_paused = true →
        (fake_resume s).timerRunning = true ∧ (fake_resume s).fake_paused = false)
    ∧ (s.fake_paused = false → fake_resume s = s)
    ∧ (s.paused = true → on_pause_button_entered s = s) := by
  refine ⟨rfl, rfl, rfl, ?_, ?_, ?_, ?_, ?_⟩ <;>
    simp +contextual [fake_pause, fake_resume, on_pause_button_entered]

/-- Witness for C9 from a Playing state, a fake-paused state and a paused
state. -/
theorem C9_fake_pause_resume_witness :
    (fake_pause ⟨2, false, false, true, 9⟩).timerRunning = false
    ∧ (fake_resume (fake_pause ⟨2, false, false, true, 9⟩)).current_frame_index = 2
    ∧ (fake_resume (fake_pause ⟨2, false, false, true, 9⟩)).paused = false
    ∧ (fake_resume ⟨2, false, true, false, 9⟩).timerRunning = true
    ∧ fake_resume ⟨2, false, false, true, 9⟩ = ⟨2, false, false, true, 9⟩
    ∧ on_pause_button_entered ⟨2, true, false, false, 9⟩ =
        ⟨2, true, false, false, 9⟩ :=
  ⟨(C9_fake_pause_resume ⟨2, false, false, true, 9⟩).1,
   (C9_fake_pause_resume ⟨2, false, false, true, 9⟩).2.2.2.1,
   (C9_fake_pause_resume ⟨2, false, false, true, 9⟩).2.2.2.2.1,
   ((C9_fake_pause_resume ⟨2, false, true, false, 9⟩).2.2.2.2.2.1 rfl).1,
   (C9_fake_pause_resume ⟨2, false, false, true, 9⟩).2.2.2.2.2.2.1 rfl,
   (C9_fake_pause_resume ⟨2, true, false, false, 9⟩).2.2.2.2.2.2.2 rfl⟩

/-- C10: a strategy and render-type pair is accepted at construction exactly
when SET_IMAGE is only requested together with a type whose display element
has an in-place image setter; the mismatching pair fails with a
StrategyMismatchError; and no player operation ever changes the strategy
fixed at construction. -/
theorem C10_update_strategy (strategy : UpdateStrategy) (t : ImageType)
    (ops : List Op) (p : ConfiguredPlayer) :
    ((strategy = UpdateStrategy.SET_IMAGE → has_set_image_support t = true) →
        validate_update_strategy strategy t = Except.ok strategy)
    ∧ (strategy = UpdateStrategy.SET_IMAGE → has_set_image_support t = false →
        ∃ e, validate_update_strategy strategy t = Except.error e)
    ∧ (runC ops p).update_strategy = p.update_strategy := by
  refine ⟨?_, ?_, ?_⟩
  · intro h
    rw [validate_update_strategy, if_neg]
    rintro ⟨h1, h2⟩
    rw [h h1] at h2
    cases h2
  · intro h1 h2
    exact ⟨_, by rw [validate_update_strategy, if_pos ⟨h1, h2⟩]⟩
  · induction ops generalizing p with
    | nil => rfl
    | cons op ops ih => exact ih (applyOpC op p)

/-- Witness for C10: REACTIVE with UNICODE is accepted, SET_IMAGE with
UNICODE is rejected, and a tick/toggle run keeps the strategy REACTIVE. -/
theorem C10_update_strategy_witness :
    validate_update_strategy UpdateStrategy.REACTIVE ImageType.UNICODE =
      Except.ok UpdateStrategy.REACTIVE
    ∧ (∃ e, validate_update_strategy UpdateStrategy.SET_IMAGE ImageType.UNICODE =
        Except.error e)
    ∧ (runC [Op.tick, Op.toggle]
        ⟨⟨0, false, false, true, 2⟩, UpdateStrategy.REACTIVE⟩).update_strategy =
      UpdateStrategy.REACTIVE :=
  ⟨(C10_update_strategy UpdateStrategy.REACTIVE ImageType.UNICODE []
      ⟨⟨0, false, false, true, 2⟩, UpdateStrategy.REACTIVE⟩).1 (by decide),
   (C10_update_strategy UpdateStrategy.SET_IMAGE ImageType.UNICODE []
      ⟨⟨0, false, false, true, 2⟩, UpdateStrategy.REACTIVE⟩).2.1 rfl rfl,
   (C10_update_strategy UpdateStrategy.REACTIVE ImageType.UNICODE
      [Op.tick, Op.toggle]
      ⟨⟨0, false, false, true, 2⟩, UpdateStrategy.REACTIVE⟩).2.2⟩

end TextualVideo
